import Mathlib

/-!
# Verification of the country-currency refresh pipeline

Shallow embedding of the refresh pipeline of the country/currency API:
the GDP estimator (`calculateEstimatedGDP`), currency resolution
(`resolveCurrencyCode`, `extractUniqueCurrencyCodes`), the exchange-rate
lookup (`getMultipleExchangeRates`, `fetchExchangeRatesForCurrencies`),
per-record processing (`processCountryData`), the case-insensitive upsert
(`upsertCountry`), status reconciliation
(`refreshSystemStatusFromDatabase`) and the full refresh cycle
(`refreshCountries`), together with the controller's mapping of refresh
outcomes to HTTP responses.

JavaScript numbers are modelled as rationals (`ℚ`), timestamps as `Nat`,
nullable values as `Option`.  The nondeterministic `Math.random()` draw is
passed in explicitly as a rational in `[0,1)`; external fetches are passed
in as `Except` values; a per-record failure oracle models storage errors
thrown by an individual upsert (the repository rolls the transaction back,
so a failed upsert leaves storage unchanged).
-/

namespace CountryApi

/-- JS `String.prototype.toUpperCase` (character-wise upper casing). -/
def upperStr (s : String) : String := ⟨s.data.map Char.toUpper⟩

/-- JS `String.prototype.toLowerCase` / SQL `LOWER` (character-wise lower casing). -/
def lowerStr (s : String) : String := ⟨s.data.map Char.toLower⟩

/-- SQL `LOWER(a) = LOWER(b)`: case-insensitive name comparison. -/
def lowerEq (a b : String) : Bool := lowerStr a == lowerStr b

/-- One entry of `ExternalCountry.currencies` (`{code, name, symbol}`). -/
structure Currency where
  code : String
  name : String
  symbol : String
deriving DecidableEq

/-- The normalized `ExternalCountry` shape produced by the countries adapter. -/
structure ExternalCountry where
  name : String
  capital : Option String
  region : Option String
  population : ℚ
  flag : Option String
  currencies : Option (List Currency)
deriving DecidableEq

/-- A country row as written by `processCountryData` / stored by the repository
(`Omit<Country, 'id' | 'created_at'>`). -/
structure CountryRow where
  name : String
  capital : Option String
  region : Option String
  population : ℚ
  currency_code : Option String
  exchange_rate : Option ℚ
  estimated_gdp : Option ℚ
  flag_url : Option String
  last_refreshed_at : Option Nat
deriving DecidableEq

/-- JS `x || null` / `x || undefined` on a nullable number: `0` (falsy) and
null/undefined collapse to `none`. -/
def jsOrNullQ : Option ℚ → Option ℚ
  | some r => if r = 0 then none else some r
  | none => none

/-- JS `x || null` / `x || undefined` on a nullable string: `""` (falsy) and
null/undefined collapse to `none`. -/
def jsOrNullStr : Option String → Option String
  | some s => if s = "" then none else some s
  | none => none

/-- Model of `exchangeRatesMap.get(code) || null` — looks the code up in the rates map
(values are `number | null`) and collapses a missing key, a `null` value and a
falsy `0` rate to `none`. -/
def lookupRate (m : List (String × Option ℚ)) (k : String) : Option ℚ :=
  match m.find? (fun p => p.1 == k) with
  | some p => jsOrNullQ p.2
  | none => none

/-- JS `Math.round`: round half towards positive infinity. -/
def jsRound (x : ℚ) : ℤ := (x + 1 / 2).floor

/-- Model of `Math.round(x * 100) / 100` — round to 2 decimal places. -/
def round2 (x : ℚ) : ℚ := (jsRound (x * 100) : ℚ) / 100

/-- Model of `CountryService.calculateEstimatedGDP`.  The `Math.random()` result is the
explicit argument `rand` (in `[0,1)` for real executions). -/
def calculateEstimatedGDP (population : ℚ) (exchangeRate : Option ℚ) (rand : ℚ) : Option ℚ :=
  match exchangeRate with
  | none => none
  | some rate =>
    if rate ≤ 0 then none
    else if population ≤ 0 then some 0
    else some (round2 (population * (rand * (2000 - 1000) + 1000) / rate))

/-- Currency-code resolution shared by `processCountryData` and
`extractUniqueCurrencyCodes`: take the first entry of `currencies` when the
collection is present and non-empty, and use its upper-cased code provided the
code string is truthy (non-empty). -/
def resolveCurrencyCode (c : ExternalCountry) : Option String :=
  match c.currencies with
  | some (first :: _) => if first.code = "" then none else some (upperStr first.code)
  | _ => none

/-- Model of `CountryService.extractUniqueCurrencyCodes`: first currency code of each
record, upper-cased, de-duplicated in insertion order. -/
def extractUniqueCurrencyCodes (countries : List ExternalCountry) : List String :=
  countries.foldl (fun acc c =>
    match resolveCurrencyCode c with
    | some code => if code ∈ acc then acc else acc ++ [code]
    | none => acc) []

/-- Model of `ExternalAPIError` (message only; the name/status fields play no role in
the verified control flow). -/
structure ExtErr where
  message : String
deriving DecidableEq

/-- Model of `ExchangeRatesAPIClient.getMultipleExchangeRates` over a fetched snapshot:
for each requested code, `some rate` when the upper-cased code is a key of the
snapshot's rates object, `none` otherwise; a failed snapshot fetch propagates
the error. -/
def getMultipleExchangeRates (snapshot : Except ExtErr (List (String × ℚ)))
    (codes : List String) : Except ExtErr (List (String × Option ℚ)) :=
  match snapshot with
  | .error e => .error e
  | .ok rates => .ok (codes.map (fun code =>
      (code, (rates.find? (fun p => p.1 == upperStr code)).map (fun p => p.2))))

/-- Model of `CountryService.fetchExchangeRatesForCurrencies`: empty code set short
circuits to an empty map; a thrown rate-source failure is caught and replaced
by a map sending every requested code to `null`. -/
def fetchExchangeRatesForCurrencies (snapshot : Except ExtErr (List (String × ℚ)))
    (codes : List String) : List (String × Option ℚ) :=
  if codes.isEmpty then []
  else
    match getMultipleExchangeRates snapshot codes with
    | .ok m => m
    | .error _ => codes.map (fun code => (code, none))

/-- Model of `CountryService.processCountryData`: resolve the currency code, look its
rate up (`|| null`), estimate the GDP, and build the row with the JS `||
undefined` coercions of the source. -/
def processCountryData (c : ExternalCountry) (ratesMap : List (String × Option ℚ))
    (rand : ℚ) (now : Nat) : CountryRow :=
  let currencyCode := resolveCurrencyCode c
  let exchangeRate := match currencyCode with
    | some code => lookupRate ratesMap code
    | none => none
  let estimatedGdp := calculateEstimatedGDP c.population exchangeRate rand
  { name := c.name
    capital := jsOrNullStr c.capital
    region := jsOrNullStr c.region
    population := c.population
    currency_code := jsOrNullStr currencyCode
    exchange_rate := jsOrNullQ exchangeRate
    estimated_gdp := jsOrNullQ estimatedGdp
    flag_url := jsOrNullStr c.flag
    last_refreshed_at := some now }

/-- A persisted row: auto-increment `id` plus the country fields. -/
structure StoredRow where
  id : Nat
  row : CountryRow
deriving DecidableEq

/-- The `countries` table: rows in insertion order plus the auto-increment
counter. -/
structure Storage where
  rows : List StoredRow
  nextId : Nat
deriving DecidableEq

/-- The field values actually written by `upsertCountry`'s SQL statements:
`|| null` coercions on the nullable fields, `last_refreshed_at` set to the
current timestamp (`CURRENT_TIMESTAMP` on update, the column default on
insert). -/
def storedOf (c : CountryRow) (now : Nat) : CountryRow :=
  { name := c.name
    capital := jsOrNullStr c.capital
    region := jsOrNullStr c.region
    population := c.population
    currency_code := jsOrNullStr c.currency_code
    exchange_rate := jsOrNullQ c.exchange_rate
    estimated_gdp := jsOrNullQ c.estimated_gdp
    flag_url := jsOrNullStr c.flag_url
    last_refreshed_at := some now }

/-- Model of `CountryRepository.upsertCountry`: find the first row whose name matches
case-insensitively; update that row in place (keeping its id) if found,
otherwise insert a fresh row with the next id. -/
def upsertCountry (st : Storage) (c : CountryRow) (now : Nat) : Storage :=
  match st.rows.find? (fun r => lowerEq r.row.name c.name) with
  | some existing =>
    { st with rows := st.rows.map (fun r =>
        if r.id = existing.id then { id := r.id, row := storedOf c now } else r) }
  | none =>
    { rows := st.rows ++ [{ id := st.nextId, row := storedOf c now }],
      nextId := st.nextId + 1 }

/-- The singleton `system_status` row. -/
structure SystemStatusRow where
  total_countries : Nat
  last_refreshed_at : Option Nat
deriving DecidableEq

/-- One accumulation step of SQL `MAX` over nullable timestamps (`NULL`
values are ignored). -/
def maxStep (acc : Option Nat) (r : StoredRow) : Option Nat :=
  match acc, r.row.last_refreshed_at with
  | none, t => t
  | some a, none => some a
  | some a, some t => some (max a t)

/-- SQL `MAX(last_refreshed_at)` over the countries table (`NULL` values are
ignored; `none` when the table is empty or all-null). -/
def maxLastRefreshed (rows : List StoredRow) : Option Nat :=
  rows.foldl maxStep none

/-- Model of `SystemStatusService.refreshSystemStatusFromDatabase`: recompute the count
and the maximum refresh timestamp from the countries table; when the maximum
is `NULL` only the count is written and the old timestamp is kept. -/
def refreshSystemStatusFromDatabase (st : Storage) (status : SystemStatusRow) : SystemStatusRow :=
  match maxLastRefreshed st.rows with
  | some t => { total_countries := st.rows.length, last_refreshed_at := some t }
  | none => { status with total_countries := st.rows.length }

/-- The structured result of `CountryService.refreshCountries`. -/
structure RefreshOutcome where
  success : Bool
  processed : Nat
  errors : List String
deriving DecidableEq

/-- How `refreshCountries` terminates: rethrowing an `ExternalAPIError`, or
returning a structured outcome. -/
inductive RefreshResult where
  | thrown (e : ExtErr)
  | returned (o : RefreshOutcome)
deriving DecidableEq

/-- The mutable state a refresh cycle can write: the countries table and the
singleton status row. -/
structure RefreshState where
  storage : Storage
  status : SystemStatusRow
deriving DecidableEq

/-- The per-record loop of `refreshCountries` (step 4): for each record, a
per-record storage failure (the `failFn` oracle, modelling a thrown upsert
error whose transaction was rolled back) is caught and recorded as a message
keyed to the record's name, while a successful record is processed and
upserted and bumps the success counter. -/
def processAll (ratesMap : List (String × Option ℚ)) (randFn : Nat → ℚ)
    (failFn : Nat → Option String) (now : Nat) :
    List ExternalCountry → Nat → Storage → Nat × List String × Storage
  | [], _, st => (0, [], st)
  | c :: rest, i, st =>
    match failFn i with
    | some msg =>
      let r := processAll ratesMap randFn failFn now rest (i + 1) st
      (r.1, ("Failed to process country " ++ c.name ++ ": " ++ msg) :: r.2.1, r.2.2)
    | none =>
      let row := processCountryData c ratesMap (randFn i) now
      let r := processAll ratesMap randFn failFn now rest (i + 1) (upsertCountry st row now)
      (r.1 + 1, r.2.1, r.2.2)

/-- Model of `CountryService.refreshCountries`, the full cycle: a failed country fetch
is rethrown untouched; an empty fetch result throws a plain error that the
outer catch turns into a failure outcome; otherwise the currency codes are
extracted, the rates fetched (degrading to all-null on failure), every record
is processed with per-record failure isolation, and the system status is
recomputed from storage truth when at least one record succeeded. -/
def refreshCountries (fetchResult : Except ExtErr (List ExternalCountry))
    (snapshot : Except ExtErr (List (String × ℚ)))
    (randFn : Nat → ℚ) (failFn : Nat → Option String) (now : Nat)
    (state : RefreshState) : RefreshResult × RefreshState :=
  match fetchResult with
  | .error e => (.thrown e, state)
  | .ok countries =>
    if countries.isEmpty then
      (.returned { success := false, processed := 0,
                   errors := ["Refresh operation failed: No countries data received from external API"] },
       state)
    else
      let codes := extractUniqueCurrencyCodes countries
      let ratesMap := fetchExchangeRatesForCurrencies snapshot codes
      let r := processAll ratesMap randFn failFn now countries 0 state.storage
      let status1 := if 0 < r.1 then refreshSystemStatusFromDatabase r.2.2 state.status
                     else state.status
      (.returned { success := decide (0 < r.1), processed := r.1, errors := r.2.1 },
       { storage := r.2.2, status := status1 })

/-- The HTTP responses the refresh controller can produce. -/
inductive HttpResponse where
  | ok (processed : Nat) (errors : List String)
  | serviceUnavailable (detail : String)
deriving DecidableEq

/-- HTTP status code of a controller response (`c.json(..., 200)` /
`sendServiceUnavailableError` = 503). -/
def statusCode : HttpResponse → Nat
  | .ok _ _ => 200
  | .serviceUnavailable _ => 503

/-- Model of `CountriesController.refreshCountries`: a thrown `ExternalAPIError`
becomes a 503; a structured result with `success: false` also becomes a 503
(`result.errors.join('; ')`); a successful result becomes a 200 JSON body. -/
def controllerRefreshCountries (svc : RefreshResult) : HttpResponse :=
  match svc with
  | .thrown e => .serviceUnavailable e.message
  | .returned o =>
    if o.success then .ok o.processed o.errors
    else .serviceUnavailable (String.intercalate ("; ") o.errors)

/-- Half-away-from-zero rounding to an integer — spec wording, for comparison
with the source's `Math.round`. -/
def roundHalfAwayFromZero (x : ℚ) : ℤ :=
  if x < 0 then -(-x + 1 / 2).floor else (x + 1 / 2).floor

/-- Half-away-from-zero rounding to 2 decimal places — spec wording. -/
def round2Away (x : ℚ) : ℚ := (roundHalfAwayFromZero (x * 100) : ℚ) / 100

/-! ## Helper lemmas -/

/-- On non-negative arguments, JS `Math.round`-based 2-decimal rounding agrees
with half-away-from-zero 2-decimal rounding. -/
theorem round2_eq_round2Away_of_nonneg {x : ℚ} (hx : 0 ≤ x) : round2 x = round2Away x := by
  unfold round2 round2Away roundHalfAwayFromZero jsRound
  rw [if_neg (not_lt.mpr (mul_nonneg hx (by norm_num)))]

/-- Lemma: `jsOrNullQ` never produces a (falsy) zero value. -/
theorem jsOrNullQ_ne_zero : ∀ {v : Option ℚ} {r : ℚ}, jsOrNullQ v = some r → r ≠ 0
  | none, r, h => by simp [jsOrNullQ] at h
  | some q, r, h => by
      by_cases hq : q = 0
      · simp [jsOrNullQ, hq] at h
      · simp only [jsOrNullQ, if_neg hq, Option.some.injEq] at h
        exact h ▸ hq

/-! ## C2 — the GDP estimator -/

/-- C2: `estimate(population, rate)` returns null whenever the rate is null,
zero, or negative, for every population value; returns exactly 0 when
`population <= 0` and the rate is valid (> 0); and otherwise returns
`round2(population * multiplier / rate)` with half-away-from-zero rounding to
2 decimal places, where the multiplier `rand * (2000 - 1000) + 1000` ranges
over `[1000, 2000)` exactly as the random draw `rand` ranges over `[0, 1)`. -/
theorem c2_estimate_gdp :
    (∀ pop rand : ℚ, calculateEstimatedGDP pop none rand = none) ∧
    (∀ pop r rand : ℚ, r ≤ 0 → calculateEstimatedGDP pop (some r) rand = none) ∧
    (∀ pop r rand : ℚ, pop ≤ 0 → 0 < r → calculateEstimatedGDP pop (some r) rand = some 0) ∧
    (∀ pop r rand : ℚ, 0 < pop → 0 < r → 0 ≤ rand → rand < 1 →
      ∃ m : ℚ, 1000 ≤ m ∧ m < 2000 ∧
        calculateEstimatedGDP pop (some r) rand = some (round2Away (pop * m / r))) ∧
    (∀ pop r m : ℚ, 0 < pop → 0 < r → 1000 ≤ m → m < 2000 →
      ∃ rand : ℚ, 0 ≤ rand ∧ rand < 1 ∧
        calculateEstimatedGDP pop (some r) rand = some (round2Away (pop * m / r))) := by
  refine ⟨fun pop rand => rfl, ?_, ?_, ?_, ?_⟩
  · intro pop r rand hr
    simp only [calculateEstimatedGDP, if_pos hr]
  · intro pop r rand hpop hr
    simp only [calculateEstimatedGDP, if_neg (not_le.mpr hr), if_pos hpop]
  · intro pop r rand hpop hr h0 h1
    refine ⟨rand * (2000 - 1000) + 1000, by linarith, by linarith, ?_⟩
    simp only [calculateEstimatedGDP, if_neg (not_le.mpr hr), if_neg (not_le.mpr hpop)]
    rw [round2_eq_round2Away_of_nonneg
      (div_nonneg (mul_nonneg hpop.le (by linarith)) hr.le)]
  · intro pop r m hpop hr hm1 hm2
    have hrw : (m - 1000) / 1000 * (2000 - 1000) + 1000 = m := by field_simp; ring
    refine ⟨(m - 1000) / 1000, div_nonneg (by linarith) (by norm_num),
      by rw [div_lt_one (by norm_num : (0:ℚ) < 1000)]; linarith, ?_⟩
    simp only [calculateEstimatedGDP, if_neg (not_le.mpr hr), if_neg (not_le.mpr hpop)]
    rw [hrw, round2_eq_round2Away_of_nonneg (div_nonneg (mul_nonneg hpop.le (by linarith)) hr.le)]

/-- Witness for C2 at `population = 1`, `rate = 2`, `rand = 0`. -/
theorem c2_estimate_gdp_witness :
    ∃ m : ℚ, 1000 ≤ m ∧ m < 2000 ∧
      calculateEstimatedGDP 1 (some 2) 0 = some (round2Away (1 * m / 2)) :=
  c2_estimate_gdp.2.2.2.1 1 2 0 (by norm_num) (by norm_num) le_rfl (by norm_num)

/-! ## C10 — no division by zero or a negative rate -/

/-- C10: the GDP computation never divides by zero or by a negative rate:
`calculateEstimatedGDP` returns null for a null or non-positive rate before
the division is reached, the division branch executes only with a strictly
positive rate, and a rate looked up from the snapshot map that is `0` (or
otherwise falsy) is coerced to null before use. -/
theorem c10_no_division_by_nonpositive_rate :
    (∀ pop rand : ℚ, calculateEstimatedGDP pop none rand = none) ∧
    (∀ pop r rand : ℚ, r ≤ 0 → calculateEstimatedGDP pop (some r) rand = none) ∧
    (∀ (pop : ℚ) (optr : Option ℚ) (rand : ℚ), calculateEstimatedGDP pop optr rand ≠ none →
      ∃ r, optr = some r ∧ 0 < r) ∧
    (∀ (m : List (String × Option ℚ)) (k : String) (r : ℚ), lookupRate m k = some r → r ≠ 0) := by
  refine ⟨fun pop rand => rfl, ?_, ?_, ?_⟩
  · intro pop r rand hr
    simp only [calculateEstimatedGDP, if_pos hr]
  · intro pop optr rand hne
    match optr with
    | none => exact absurd rfl hne
    | some r =>
      refine ⟨r, rfl, ?_⟩
      by_contra hle
      exact hne (by simp only [calculateEstimatedGDP, if_pos (not_lt.mp hle)])
  · intro m k r hlk
    unfold lookupRate at hlk
    match hf : m.find? (fun p => p.1 == k) with
    | none => rw [hf] at hlk; exact absurd hlk (by simp)
    | some p =>
      rw [hf] at hlk
      exact jsOrNullQ_ne_zero hlk

/-- Witness for C10 at concrete inputs: a negative rate yields null, a valid
positive rate is certified positive, and a looked-up rate of 2 is non-zero. -/
theorem c10_no_division_by_nonpositive_rate_witness :
    calculateEstimatedGDP 5 none 0 = none ∧
    calculateEstimatedGDP 5 (some (-3)) 0 = none ∧
    (∃ r, (some 2 : Option ℚ) = some r ∧ 0 < r) ∧
    (2 : ℚ) ≠ 0 :=
  ⟨c10_no_division_by_nonpositive_rate.1 5 0,
   c10_no_division_by_nonpositive_rate.2.1 5 (-3) 0 (by norm_num),
   c10_no_division_by_nonpositive_rate.2.2.1 5 (some 2) 0 (by decide),
   c10_no_division_by_nonpositive_rate.2.2.2 [("USD", some 2)] "USD" 2 (by decide)⟩

/-! ## C3 — the persisted `estimatedGdp` ↔ `exchangeRate` nullity invariant -/

/-- C3 (code bug): for a record with population `0` and a valid looked-up rate
`2`, `calculateEstimatedGDP` deliberately returns `0`, but `processCountryData`
persists `estimated_gdp: estimatedGdp || undefined`, coercing the falsy `0` to
null while the exchange rate is stored as `2` — so a persisted row violates
"`estimatedGdp` is null iff `exchangeRate` is null". -/
theorem c3_gdp_zero_coerced_to_null_bug :
    calculateEstimatedGDP 0 (some 2) 0 = some 0 ∧
    (processCountryData ⟨"Zeroland", none, none, 0, none, some [⟨"ABC", "n", "s"⟩]⟩
        [("ABC", some 2)] 0 7).exchange_rate = some 2 ∧
    (processCountryData ⟨"Zeroland", none, none, 0, none, some [⟨"ABC", "n", "s"⟩]⟩
        [("ABC", some 2)] 0 7).estimated_gdp = none ∧
    (storedOf (processCountryData ⟨"Zeroland", none, none, 0, none, some [⟨"ABC", "n", "s"⟩]⟩
        [("ABC", some 2)] 0 7) 7).exchange_rate = some 2 ∧
    (storedOf (processCountryData ⟨"Zeroland", none, none, 0, none, some [⟨"ABC", "n", "s"⟩]⟩
        [("ABC", some 2)] 0 7) 7).estimated_gdp = none := by
  refine ⟨by decide, by decide, by decide, by decide, by decide⟩

/-! ## C5 — currency resolution uses only the first entry -/

/-- C5 counterexample: the claim says an empty-string code in the first
currency entry is still treated as present and non-null, but the source's
truthiness check (`if (firstCurrency && firstCurrency.code)`) treats `""` as
falsy, so the resolved code (and the persisted `currency_code`) is null. -/
theorem c5_empty_code_resolves_to_null :
    resolveCurrencyCode ⟨"Emptia", none, none, 5, none, some [⟨"", "Void", "V"⟩]⟩ = none ∧
    (processCountryData ⟨"Emptia", none, none, 5, none, some [⟨"", "Void", "V"⟩]⟩
        [] 0 3).currency_code = none := by
  exact ⟨by decide, by decide⟩

/-- C5 (amended): `resolveCurrency` returns null when the currencies
collection is absent or empty; otherwise it consults only the first entry —
changing second and later entries never changes the resolved code — resolving
to the first entry's code upper-cased when that code is non-empty and to null
(treated as absent) when it is the empty string. -/
theorem c5_resolve_currency_first_entry_only :
    (∀ c : ExternalCountry, c.currencies = none → resolveCurrencyCode c = none) ∧
    (∀ c : ExternalCountry, c.currencies = some [] → resolveCurrencyCode c = none) ∧
    (∀ (c : ExternalCountry) (f : Currency) (rest : List Currency),
      c.currencies = some (f :: rest) →
      resolveCurrencyCode c = if f.code = "" then none else some (upperStr f.code)) ∧
    (∀ (n : String) (cap reg : Option String) (pop : ℚ) (fl : Option String)
       (f : Currency) (r1 r2 : List Currency),
      resolveCurrencyCode ⟨n, cap, reg, pop, fl, some (f :: r1)⟩
        = resolveCurrencyCode ⟨n, cap, reg, pop, fl, some (f :: r2)⟩) := by
  refine ⟨?_, ?_, ?_, ?_⟩
  · intro c h; unfold resolveCurrencyCode; rw [h]
  · intro c h; unfold resolveCurrencyCode; rw [h]
  · intro c f rest h; unfold resolveCurrencyCode; rw [h]
  · intro n cap reg pop fl f r1 r2; rfl

/-- Witness for C5's amended claim on a concrete record with two currency
entries: only the first (`"abc"`) is consulted and it resolves upper-cased. -/
theorem c5_resolve_currency_first_entry_only_witness :
    resolveCurrencyCode ⟨"Bicurrencia", none, none, 9, none,
        some [⟨"abc", "Abc", "a"⟩, ⟨"zzz", "Zzz", "z"⟩]⟩
      = (if ("abc" : String) = "" then none else some (upperStr ("abc"))) ∧
    resolveCurrencyCode ⟨"Bicurrencia", none, none, 9, none,
        some [⟨"abc", "Abc", "a"⟩, ⟨"zzz", "Zzz", "z"⟩]⟩ = some ("ABC") :=
  ⟨c5_resolve_currency_first_entry_only.2.2.1
      ⟨"Bicurrencia", none, none, 9, none, some [⟨"abc", "Abc", "a"⟩, ⟨"zzz", "Zzz", "z"⟩]⟩
      ⟨"abc", "Abc", "a"⟩ [⟨"zzz", "Zzz", "z"⟩] rfl,
   by decide⟩

/-! ## C7 — case-insensitive upsert identity -/

/-- C7: upserting a record named `"Japan"` and then a record named `"JAPAN"`
into storage holding no matching row yields exactly one new stored row: the
first upsert inserts it, the second matches it by case-insensitive name and
overwrites all fields in place on the same identity (the second upsert's
values win) with a refreshed timestamp. -/
theorem c7_upsert_case_insensitive_identity
    (st : Storage) (c1 c2 : CountryRow) (t1 t2 : Nat)
    (hfresh : ∀ r ∈ st.rows, lowerEq r.row.name c1.name = false)
    (hid : ∀ r ∈ st.rows, r.id ≠ st.nextId)
    (hname : lowerStr c2.name = lowerStr c1.name) :
    upsertCountry (upsertCountry st c1 t1) c2 t2
      = { rows := st.rows ++ [{ id := st.nextId, row := storedOf c2 t2 }],
          nextId := st.nextId + 1 } ∧
    (upsertCountry (upsertCountry st c1 t1) c2 t2).rows.length = st.rows.length + 1 := by
  have hq : ∀ a : String, lowerEq a c2.name = lowerEq a c1.name := fun a => by
    unfold lowerEq; rw [hname]
  have h1 : st.rows.find? (fun r => lowerEq r.row.name c1.name) = none :=
    List.find?_eq_none.mpr fun r hr => by simp [hfresh r hr]
  have e1 : upsertCountry st c1 t1
      = { rows := st.rows ++ [{ id := st.nextId, row := storedOf c1 t1 }],
          nextId := st.nextId + 1 } := by
    unfold upsertCountry
    rw [h1]
  have h2a : st.rows.find? (fun r => lowerEq r.row.name c2.name) = none :=
    List.find?_eq_none.mpr fun r hr => by simp [hq, hfresh r hr]
  have h2b : List.find? (fun r => lowerEq r.row.name c2.name)
      ([{ id := st.nextId, row := storedOf c1 t1 }] : List StoredRow)
      = some ({ id := st.nextId, row := storedOf c1 t1 } : StoredRow) := by
    refine List.find?_cons_of_pos _ ?_
    show lowerEq (storedOf c1 t1).name c2.name = true
    unfold storedOf lowerEq
    simp [hname]
  have e2 : upsertCountry (upsertCountry st c1 t1) c2 t2
      = { rows := st.rows ++ [{ id := st.nextId, row := storedOf c2 t2 }],
          nextId := st.nextId + 1 } := by
    rw [e1]
    unfold upsertCountry
    rw [List.find?_append, h2a, Option.none_or, h2b]
    dsimp only
    refine congrArg (fun l => Storage.mk l (st.nextId + 1)) ?_
    rw [List.map_append]
    have hmap : st.rows.map (fun r =>
        if r.id = st.nextId then { id := r.id, row := storedOf c2 t2 } else r) = st.rows := by
      conv_rhs => rw [← List.map_id st.rows]
      exact List.map_congr_left fun r hr => by rw [if_neg (hid r hr)]; rfl
    rw [hmap]
    simp
  exact ⟨e2, by rw [e2]; simp⟩

/-- Witness for C7: `"Japan"` then `"JAPAN"` into empty storage leaves exactly
the single row `"JAPAN"` with id 0 and the second upsert's fields. -/
theorem c7_upsert_case_insensitive_identity_witness :
    upsertCountry (upsertCountry ⟨[], 0⟩
        ⟨"Japan", none, none, 1, some ("JPY"), some 2, some 3, none, none⟩ 1)
        ⟨"JAPAN", none, none, 2, some ("JPY"), none, none, none, none⟩ 2
      = { rows := [⟨0, storedOf ⟨"JAPAN", none, none, 2, some ("JPY"), none, none, none, none⟩ 2⟩],
          nextId := 1 } ∧
    (upsertCountry (upsertCountry ⟨[], 0⟩
        ⟨"Japan", none, none, 1, some ("JPY"), some 2, some 3, none, none⟩ 1)
        ⟨"JAPAN", none, none, 2, some ("JPY"), none, none, none, none⟩ 2).rows.length = 0 + 1 :=
  c7_upsert_case_insensitive_identity ⟨[], 0⟩
    ⟨"Japan", none, none, 1, some ("JPY"), some 2, some 3, none, none⟩
    ⟨"JAPAN", none, none, 2, some ("JPY"), none, none, none, none⟩ 1 2
    (by decide) (by decide) (by decide)

/-! ## Helper lemmas for the refresh cycle -/

/-- Projection: `storedOf` keeps the record's name. -/
@[simp] theorem storedOf_name (c : CountryRow) (now : Nat) : (storedOf c now).name = c.name := rfl

/-- Projection: `storedOf` stamps the current timestamp. -/
@[simp] theorem storedOf_last_refreshed_at (c : CountryRow) (now : Nat) :
    (storedOf c now).last_refreshed_at = some now := rfl

/-- Projection: `processCountryData` keeps the record's name. -/
@[simp] theorem processCountryData_name (c : ExternalCountry) (m : List (String × Option ℚ))
    (rand : ℚ) (now : Nat) : (processCountryData c m rand now).name = c.name := rfl

/-- An upsert into storage holding no case-insensitive match inserts a fresh
row at the end with the next id. -/
theorem upsert_insert_of_no_match (st : Storage) (c : CountryRow) (now : Nat)
    (h : ∀ r ∈ st.rows, lowerEq r.row.name c.name = false) :
    upsertCountry st c now
      = { rows := st.rows ++ [{ id := st.nextId, row := storedOf c now }],
          nextId := st.nextId + 1 } := by
  have hf : st.rows.find? (fun r => lowerEq r.row.name c.name) = none :=
    List.find?_eq_none.mpr fun r hr => by simp [h r hr]
  unfold upsertCountry
  rw [hf]

/-- Every upsert leaves at least one row carrying the cycle's timestamp. -/
theorem upsert_writes_now (st : Storage) (c : CountryRow) (now : Nat) :
    ∃ r ∈ (upsertCountry st c now).rows, r.row.last_refreshed_at = some now := by
  rcases hf : st.rows.find? (fun r => lowerEq r.row.name c.name) with _ | ex
  · unfold upsertCountry
    rw [hf]
    exact ⟨⟨st.nextId, storedOf c now⟩, by simp, rfl⟩
  · unfold upsertCountry
    rw [hf]
    have hmem : ex ∈ st.rows := List.mem_of_find?_eq_some hf
    refine ⟨⟨ex.id, storedOf c now⟩, ?_, rfl⟩
    dsimp only
    exact List.mem_map.mpr ⟨ex, hmem, by rw [if_pos rfl]⟩

/-- A processing loop that succeeded on no record leaves storage untouched. -/
theorem processAll_storage_of_zero (m : List (String × Option ℚ)) (randFn : Nat → ℚ)
    (failFn : Nat → Option String) (now : Nat) :
    ∀ (l : List ExternalCountry) (i : Nat) (st : Storage),
      (processAll m randFn failFn now l i st).1 = 0 →
      (processAll m randFn failFn now l i st).2.2 = st
  | [], _, _, _ => rfl
  | c :: rest, i, st, h => by
    rcases hfi : failFn i with _ | msg
    · simp only [processAll, hfi] at h
      exact absurd h (by simp)
    · simp only [processAll, hfi] at h ⊢
      exact processAll_storage_of_zero m randFn failFn now rest (i + 1) st h

/-- After a loop with at least one success, some stored row carries the
cycle's timestamp. -/
theorem processAll_writes_now (m : List (String × Option ℚ)) (randFn : Nat → ℚ)
    (failFn : Nat → Option String) (now : Nat) :
    ∀ (l : List ExternalCountry) (i : Nat) (st : Storage),
      0 < (processAll m randFn failFn now l i st).1 →
      ∃ r ∈ (processAll m randFn failFn now l i st).2.2.rows,
        r.row.last_refreshed_at = some now
  | [], _, _, h => absurd h (by simp [processAll])
  | c :: rest, i, st, h => by
    rcases hfi : failFn i with _ | msg
    · simp only [processAll, hfi] at h ⊢
      rcases Nat.eq_zero_or_pos (processAll m randFn failFn now rest (i + 1)
          (upsertCountry st (processCountryData c m (randFn i) now) now)).1 with h0 | hpos
      · rw [processAll_storage_of_zero m randFn failFn now rest (i + 1) _ h0]
        exact upsert_writes_now st (processCountryData c m (randFn i) now) now
      · exact processAll_writes_now m randFn failFn now rest (i + 1) _ hpos
    · simp only [processAll, hfi] at h ⊢
      exact processAll_writes_now m randFn failFn now rest (i + 1) st h

/-- If the `MAX` fold returns `NULL`, the accumulator was `NULL` and every row
has a `NULL` timestamp. -/
theorem foldl_maxStep_none :
    ∀ (rows : List StoredRow) (acc : Option Nat),
      rows.foldl maxStep acc = none →
      acc = none ∧ ∀ r ∈ rows, r.row.last_refreshed_at = none
  | [], acc, h => ⟨h, by simp⟩
  | r :: rest, acc, h => by
    rw [List.foldl_cons] at h
    obtain ⟨hstep, hrest⟩ := foldl_maxStep_none rest (maxStep acc r) h
    have hacc : acc = none ∧ r.row.last_refreshed_at = none := by
      rcases hA : acc with _ | a
      · rcases hT : r.row.last_refreshed_at with _ | t
        · exact ⟨rfl, rfl⟩
        · exfalso
          unfold maxStep at hstep
          rw [hA, hT] at hstep
          simp at hstep
      · exfalso
        unfold maxStep at hstep
        rcases hT : r.row.last_refreshed_at with _ | t <;> rw [hA, hT] at hstep <;>
          simp at hstep
    refine ⟨hacc.1, fun r' hr' => ?_⟩
    rcases List.mem_cons.mp hr' with rfl | hmem
    · exact hacc.2
    · exact hrest r' hmem

/-- A row carrying a timestamp forces `MAX(last_refreshed_at)` to be
non-`NULL`. -/
theorem maxLastRefreshed_ne_none {rows : List StoredRow} {r : StoredRow} {t : Nat}
    (hmem : r ∈ rows) (ht : r.row.last_refreshed_at = some t) :
    maxLastRefreshed rows ≠ none := fun h => by
  obtain ⟨-, hall⟩ := foldl_maxStep_none rows none h
  rw [hall r hmem] at ht
  exact Option.noConfusion ht

/-- A loop with no per-record failures processes every record and collects no
errors. -/
theorem processAll_no_failures (m : List (String × Option ℚ)) (randFn : Nat → ℚ) (now : Nat) :
    ∀ (l : List ExternalCountry) (i : Nat) (st : Storage),
      (processAll m randFn (fun _ => none) now l i st).1 = l.length ∧
      (processAll m randFn (fun _ => none) now l i st).2.1 = []
  | [], _, _ => ⟨rfl, rfl⟩
  | c :: rest, i, st => by
    simp only [processAll]
    obtain ⟨h1, h2⟩ := processAll_no_failures m randFn now rest (i + 1)
      (upsertCountry st (processCountryData c m (randFn i) now) now)
    exact ⟨by rw [h1]; rfl, h2⟩

/-- A loop in which every record fails processes none, collects one error per
record, and leaves storage untouched. -/
theorem processAll_all_failures (m : List (String × Option ℚ)) (randFn : Nat → ℚ)
    (msgs : Nat → String) (now : Nat) :
    ∀ (l : List ExternalCountry) (i : Nat) (st : Storage),
      (processAll m randFn (fun j => some (msgs j)) now l i st).1 = 0 ∧
      (processAll m randFn (fun j => some (msgs j)) now l i st).2.1.length = l.length ∧
      (processAll m randFn (fun j => some (msgs j)) now l i st).2.2 = st
  | [], _, _ => ⟨rfl, rfl, rfl⟩
  | c :: rest, i, st => by
    simp only [processAll]
    obtain ⟨h1, h2, h3⟩ := processAll_all_failures m randFn msgs now rest (i + 1) st
    exact ⟨h1, by simp [h2], h3⟩

/-! ## C1 — country-source failure aborts with no writes -/

/-- C1: a country-source fetch failure is propagated unchanged as a thrown
`ExternalSourceFailure` with no storage writes — row count and every row's
`lastRefreshedAt` unchanged — and an empty fetch result likewise aborts as a
failure outcome with no writes. -/
theorem c1_country_fetch_failure_aborts_without_writes
    (e : ExtErr) (snapshot : Except ExtErr (List (String × ℚ))) (randFn : Nat → ℚ)
    (failFn : Nat → Option String) (now : Nat) (state : RefreshState) :
    refreshCountries (.error e) snapshot randFn failFn now state = (.thrown e, state) ∧
    refreshCountries (.ok []) snapshot randFn failFn now state
      = (.returned ⟨false, 0,
          ["Refresh operation failed: No countries data received from external API"]⟩,
         state) ∧
    (refreshCountries (.error e) snapshot randFn failFn now state).2.storage.rows.length
      = state.storage.rows.length ∧
    (refreshCountries (.error e) snapshot randFn failFn now state).2.storage.rows.map
        (fun r => r.row.last_refreshed_at)
      = state.storage.rows.map (fun r => r.row.last_refreshed_at) ∧
    (refreshCountries (.ok []) snapshot randFn failFn now state).2.storage.rows.length
      = state.storage.rows.length ∧
    (refreshCountries (.ok []) snapshot randFn failFn now state).2.storage.rows.map
        (fun r => r.row.last_refreshed_at)
      = state.storage.rows.map (fun r => r.row.last_refreshed_at) :=
  ⟨rfl, rfl, rfl, rfl, rfl, rfl⟩

/-- Definitional unfolding of a refresh cycle whose country fetch returned a
non-empty list. -/
theorem refreshCountries_cons_eq (c : ExternalCountry) (cs : List ExternalCountry)
    (snapshot : Except ExtErr (List (String × ℚ))) (randFn : Nat → ℚ)
    (failFn : Nat → Option String) (now : Nat) (state : RefreshState) :
    refreshCountries (.ok (c :: cs)) snapshot randFn failFn now state
      = (let ratesMap := fetchExchangeRatesForCurrencies snapshot
            (extractUniqueCurrencyCodes (c :: cs));
         let r := processAll ratesMap randFn failFn now (c :: cs) 0 state.storage;
         (.returned ⟨decide (0 < r.1), r.1, r.2.1⟩,
          ⟨r.2.2, if 0 < r.1 then refreshSystemStatusFromDatabase r.2.2 state.status
                  else state.status⟩)) := rfl

/-! ## C4 — exchange-rate failure degrades gracefully -/

/-- Upper-casing a non-empty string yields a non-empty string. -/
theorem upperStr_ne_empty {s : String} (h : s ≠ "") : upperStr s ≠ "" := by
  intro hc
  apply h
  have hd : s.data.map Char.toUpper = [] := congrArg String.data hc
  have hnil : s.data = [] := by
    cases hs : s.data with
    | nil => rfl
    | cons a l => rw [hs] at hd; simp at hd
  cases s with
  | mk d =>
    cases hnil
    rfl

/-- A resolved currency code is never the empty string, so the `|| undefined`
coercion keeps it intact. -/
theorem jsOrNullStr_resolveCurrencyCode (c : ExternalCountry) :
    jsOrNullStr (resolveCurrencyCode c) = resolveCurrencyCode c := by
  unfold resolveCurrencyCode
  rcases hcur : c.currencies with _ | l
  · rfl
  · rcases l with _ | ⟨f, rest⟩
    · rfl
    · dsimp only
      by_cases hf : f.code = ""
      · rw [if_pos hf]; rfl
      · rw [if_neg hf]
        unfold jsOrNullStr
        dsimp only
        rw [if_neg (upperStr_ne_empty hf)]

/-- Looking any code up in an all-null rates map yields null. -/
theorem lookupRate_eq_none {m : List (String × Option ℚ)} (hm : ∀ p ∈ m, p.2 = none)
    (k : String) : lookupRate m k = none := by
  unfold lookupRate
  rcases hf : m.find? (fun p => p.1 == k) with _ | p
  · rw [hf]
  · rw [hf]
    dsimp only
    rw [hm p (List.mem_of_find?_eq_some hf)]
    rfl

/-- When the rate-source fetch failed, the caught-and-degraded rates map sends
every code to null. -/
theorem fetchRates_error_all_none (e : ExtErr) (codes : List String) :
    ∀ p ∈ fetchExchangeRatesForCurrencies (.error e) codes, p.2 = none := by
  unfold fetchExchangeRatesForCurrencies getMultipleExchangeRates
  by_cases hc : codes.isEmpty
  · rw [if_pos hc]; simp
  · rw [if_neg hc]
    dsimp only
    intro p hp
    obtain ⟨code, -, rfl⟩ := List.mem_map.mp hp
    rfl

/-- Processing against an all-null rates map resolves the rate and the GDP to
null while keeping the resolved currency code intact. -/
theorem processCountryData_all_none_rates {m : List (String × Option ℚ)}
    (hm : ∀ p ∈ m, p.2 = none) (c : ExternalCountry) (rand : ℚ) (now : Nat) :
    (processCountryData c m rand now).exchange_rate = none ∧
    (processCountryData c m rand now).estimated_gdp = none ∧
    (processCountryData c m rand now).currency_code = resolveCurrencyCode c := by
  have hex : (match resolveCurrencyCode c with
      | some code => lookupRate m code
      | none => none) = (none : Option ℚ) := by
    rcases resolveCurrencyCode c with _ | code
    · rfl
    · exact lookupRate_eq_none hm code
  unfold processCountryData
  dsimp only
  rw [hex]
  exact ⟨rfl, rfl, jsOrNullStr_resolveCurrencyCode c⟩

/-- C4: when the exchange-rate fetch fails the cycle does not abort: with no
per-record storage failures it reports `success: true` with the full
processed count and no errors, every processed row resolves its rate and GDP
to null while keeping the resolved currency code, and a single fetched record
is still upserted as one stored row with null rate/GDP. -/
theorem c4_rate_failure_degrades_not_aborts
    (e : ExtErr) (countries : List ExternalCountry) (randFn : Nat → ℚ) (now : Nat)
    (state : RefreshState) (hne : countries ≠ []) :
    ((refreshCountries (.ok countries) (.error e) randFn (fun _ => none) now state).1
      = .returned ⟨true, countries.length, []⟩) ∧
    (∀ (c : ExternalCountry) (rand : ℚ),
      (processCountryData c
          (fetchExchangeRatesForCurrencies (.error e) (extractUniqueCurrencyCodes countries))
          rand now).exchange_rate = none ∧
      (processCountryData c
          (fetchExchangeRatesForCurrencies (.error e) (extractUniqueCurrencyCodes countries))
          rand now).estimated_gdp = none ∧
      (processCountryData c
          (fetchExchangeRatesForCurrencies (.error e) (extractUniqueCurrencyCodes countries))
          rand now).currency_code = resolveCurrencyCode c) ∧
    (∀ c : ExternalCountry,
      (refreshCountries (.ok [c]) (.error e) randFn (fun _ => none) now
          ⟨⟨[], 0⟩, state.status⟩).2.storage.rows
        = [⟨0, storedOf (processCountryData c
              (fetchExchangeRatesForCurrencies (.error e) (extractUniqueCurrencyCodes [c]))
              (randFn 0) now) now⟩] ∧
      ∀ cr : CountryRow,
        cr = storedOf (processCountryData c
            (fetchExchangeRatesForCurrencies (.error e) (extractUniqueCurrencyCodes [c]))
            (randFn 0) now) now →
        cr.name = c.name ∧ cr.currency_code = resolveCurrencyCode c ∧
        cr.exchange_rate = none ∧ cr.estimated_gdp = none ∧
        cr.last_refreshed_at = some now) := by
  refine ⟨?_, ?_, ?_⟩
  · obtain ⟨c0, cs, rfl⟩ := List.exists_cons_of_ne_nil hne
    obtain ⟨h1, h2⟩ := processAll_no_failures
      (fetchExchangeRatesForCurrencies (.error e) (extractUniqueCurrencyCodes (c0 :: cs)))
      randFn now (c0 :: cs) 0 state.storage
    rw [refreshCountries_cons_eq]
    dsimp only
    rw [h1, h2, decide_eq_true (List.length_pos.mpr hne)]
  · intro c rand
    exact processCountryData_all_none_rates
      (fetchRates_error_all_none e (extractUniqueCurrencyCodes countries)) c rand now
  · intro c
    refine ⟨rfl, fun cr hcr => ?_⟩
    obtain ⟨hex, hgdp, hcode⟩ := processCountryData_all_none_rates
      (fetchRates_error_all_none e (extractUniqueCurrencyCodes [c])) c (randFn 0) now
    subst hcr
    refine ⟨rfl, ?_, ?_, ?_, rfl⟩
    · show jsOrNullStr (processCountryData c _ (randFn 0) now).currency_code
        = resolveCurrencyCode c
      rw [hcode, jsOrNullStr_resolveCurrencyCode]
    · show jsOrNullQ (processCountryData c _ (randFn 0) now).exchange_rate = none
      rw [hex]; rfl
    · show jsOrNullQ (processCountryData c _ (randFn 0) now).estimated_gdp = none
      rw [hgdp]; rfl

/-- Witness for C4 on the spec's degraded-rate scenario: one fetched record
`Testland` with currency entry `abc`, rate source down — stored row has
`currencyCode "ABC"`, null rate, null GDP, and the cycle reports
`success: true, processed: 1`. -/
theorem c4_rate_failure_degrades_not_aborts_witness :
    ((refreshCountries
        (.ok [⟨"Testland", none, none, 1000, none, some [⟨"abc", "n", "s"⟩]⟩])
        (.error ⟨"rate source down"⟩) (fun _ => 0) (fun _ => none) 5
        ⟨⟨[], 0⟩, ⟨0, none⟩⟩).1 = .returned ⟨true, 1, []⟩) ∧
    resolveCurrencyCode ⟨"Testland", none, none, 1000, none, some [⟨"abc", "n", "s"⟩]⟩
      = some ("ABC") ∧
    (refreshCountries
        (.ok [⟨"Testland", none, none, 1000, none, some [⟨"abc", "n", "s"⟩]⟩])
        (.error ⟨"rate source down"⟩) (fun _ => 0) (fun _ => none) 5
        ⟨⟨[], 0⟩, ⟨0, none⟩⟩).2.storage.rows
      = [⟨0, ⟨"Testland", none, none, 1000, some ("ABC"), none, none, none, some 5⟩⟩] := by
  refine ⟨?_, by decide, by decide⟩
  exact (c4_rate_failure_degrades_not_aborts ⟨"rate source down"⟩
    [⟨"Testland", none, none, 1000, none, some [⟨"abc", "n", "s"⟩]⟩]
    (fun _ => 0) 5 ⟨⟨[], 0⟩, ⟨0, none⟩⟩ (by decide)).1

/-! ## C6 — all-records-failed outcome vs. the abort path -/

/-- C6 counterexample: with the country source reachable (one record fetched)
but every upsert failing, the cycle's structured result is `success: false`,
and the controller maps it to HTTP 503 — the same service-unavailable status
as the abort path — not a 200-class outcome as claimed. -/
theorem c6_all_failed_maps_to_503_counterexample :
    (refreshCountries (.ok [⟨"Testland", none, none, 1000, none, some [⟨"abc", "n", "s"⟩]⟩])
        (.ok []) (fun _ => 0) (fun _ => some ("storage down")) 5 ⟨⟨[], 0⟩, ⟨0, none⟩⟩).1
      = .returned ⟨false, 0, ["Failed to process country Testland: storage down"]⟩ ∧
    statusCode (controllerRefreshCountries
      ((refreshCountries (.ok [⟨"Testland", none, none, 1000, none, some [⟨"abc", "n", "s"⟩]⟩])
          (.ok []) (fun _ => 0) (fun _ => some ("storage down")) 5 ⟨⟨[], 0⟩, ⟨0, none⟩⟩).1)) = 503 ∧
    ¬(200 ≤ statusCode (controllerRefreshCountries
      ((refreshCountries (.ok [⟨"Testland", none, none, 1000, none, some [⟨"abc", "n", "s"⟩]⟩])
          (.ok []) (fun _ => 0) (fun _ => some ("storage down")) 5 ⟨⟨[], 0⟩, ⟨0, none⟩⟩).1)) ∧
      statusCode (controllerRefreshCountries
      ((refreshCountries (.ok [⟨"Testland", none, none, 1000, none, some [⟨"abc", "n", "s"⟩]⟩])
          (.ok []) (fun _ => 0) (fun _ => some ("storage down")) 5 ⟨⟨[], 0⟩, ⟨0, none⟩⟩).1)) < 300) := by
  exact ⟨by decide, by decide, by decide⟩

/-- C6 (amended): when the fetch succeeds but the per-record success counter
ends at 0, the service returns the structured result
`{success: false, processed: 0, errors}` without throwing — distinct, at the
service level, from the abort path's thrown `ExternalSourceFailure` — but the
HTTP controller maps this structured failure to the same 503
service-unavailable status as the abort path, not a 200-class outcome. -/
theorem c6_all_records_failed_structured_result
    (countries : List ExternalCountry) (snapshot : Except ExtErr (List (String × ℚ)))
    (randFn : Nat → ℚ) (msgs : Nat → String) (now : Nat) (state : RefreshState)
    (hne : countries ≠ []) :
    (∃ errs : List String,
      (refreshCountries (.ok countries) snapshot randFn (fun i => some (msgs i)) now state).1
        = .returned ⟨false, 0, errs⟩ ∧ errs.length = countries.length) ∧
    (∀ e, (refreshCountries (.ok countries) snapshot randFn (fun i => some (msgs i)) now
        state).1 ≠ .thrown e) ∧
    statusCode (controllerRefreshCountries
      ((refreshCountries (.ok countries) snapshot randFn (fun i => some (msgs i)) now
        state).1)) = 503 ∧
    (∀ e, statusCode (controllerRefreshCountries (.thrown e)) = 503) := by
  obtain ⟨c0, cs, rfl⟩ := List.exists_cons_of_ne_nil hne
  obtain ⟨h1, h2, -⟩ := processAll_all_failures
    (fetchExchangeRatesForCurrencies snapshot (extractUniqueCurrencyCodes (c0 :: cs)))
    randFn msgs now (c0 :: cs) 0 state.storage
  have hres : (refreshCountries (.ok (c0 :: cs)) snapshot randFn (fun i => some (msgs i)) now
      state).1
      = .returned ⟨false, 0,
          (processAll (fetchExchangeRatesForCurrencies snapshot
            (extractUniqueCurrencyCodes (c0 :: cs))) randFn (fun i => some (msgs i)) now
            (c0 :: cs) 0 state.storage).2.1⟩ := by
    rw [refreshCountries_cons_eq]
    dsimp only
    rw [h1]
    rfl
  refine ⟨⟨_, hres, h2⟩, ?_, ?_, fun e => rfl⟩
  · intro e hcontra
    rw [hres] at hcontra
    exact RefreshResult.noConfusion hcontra
  · rw [hres]
    rfl

/-- Witness for C6's amended claim, at the counterexample's concrete input. -/
theorem c6_all_records_failed_structured_result_witness :
    (∃ errs : List String,
      (refreshCountries (.ok [⟨"Testland", none, none, 1000, none, some [⟨"abc", "n", "s"⟩]⟩])
          (.ok []) (fun _ => 0) (fun _ => some ("storage down")) 5 ⟨⟨[], 0⟩, ⟨0, none⟩⟩).1
        = .returned ⟨false, 0, errs⟩ ∧ errs.length = 1) ∧
    (∀ e, (refreshCountries (.ok [⟨"Testland", none, none, 1000, none, some [⟨"abc", "n", "s"⟩]⟩])
        (.ok []) (fun _ => 0) (fun _ => some ("storage down")) 5 ⟨⟨[], 0⟩, ⟨0, none⟩⟩).1
        ≠ .thrown e) ∧
    statusCode (controllerRefreshCountries
      ((refreshCountries (.ok [⟨"Testland", none, none, 1000, none, some [⟨"abc", "n", "s"⟩]⟩])
          (.ok []) (fun _ => 0) (fun _ => some ("storage down")) 5 ⟨⟨[], 0⟩, ⟨0, none⟩⟩).1)) = 503 ∧
    (∀ e, statusCode (controllerRefreshCountries (.thrown e)) = 503) :=
  c6_all_records_failed_structured_result
    [⟨"Testland", none, none, 1000, none, some [⟨"abc", "n", "s"⟩]⟩]
    (.ok []) (fun _ => 0) (fun _ => "storage down") 5 ⟨⟨[], 0⟩, ⟨0, none⟩⟩ (by decide)

/-! ## C8 — status convergence after a successful refresh -/

/-- C8: after any refresh whose structured outcome has a positive processed
counter, the singleton status row is recomputed from storage truth: its
`totalCountries` equals the actual stored row count and its `lastRefreshedAt`
equals the maximum `lastRefreshedAt` across all stored rows. -/
theorem c8_status_recomputed_from_storage
    (countries : List ExternalCountry) (snapshot : Except ExtErr (List (String × ℚ)))
    (randFn : Nat → ℚ) (failFn : Nat → Option String) (now : Nat) (state : RefreshState)
    (o : RefreshOutcome)
    (h : (refreshCountries (.ok countries) snapshot randFn failFn now state).1 = .returned o)
    (hp : 0 < o.processed) :
    (refreshCountries (.ok countries) snapshot randFn failFn now state).2.status.total_countries
      = (refreshCountries (.ok countries) snapshot randFn failFn now
          state).2.storage.rows.length ∧
    (refreshCountries (.ok countries) snapshot randFn failFn now state).2.status.last_refreshed_at
      = maxLastRefreshed
        (refreshCountries (.ok countries) snapshot randFn failFn now state).2.storage.rows := by
  cases countries with
  | nil =>
    exfalso
    have h' : RefreshResult.returned ⟨false, 0,
        ["Refresh operation failed: No countries data received from external API"]⟩
        = RefreshResult.returned o := h
    injection h' with h''
    rw [← h''] at hp
    exact absurd hp (by simp)
  | cons c0 cs =>
    rw [refreshCountries_cons_eq] at h ⊢
    dsimp only at h ⊢
    have ho : o = ⟨decide (0 < (processAll (fetchExchangeRatesForCurrencies snapshot
        (extractUniqueCurrencyCodes (c0 :: cs))) randFn failFn now (c0 :: cs) 0
        state.storage).1),
        (processAll (fetchExchangeRatesForCurrencies snapshot
          (extractUniqueCurrencyCodes (c0 :: cs))) randFn failFn now (c0 :: cs) 0
          state.storage).1,
        (processAll (fetchExchangeRatesForCurrencies snapshot
          (extractUniqueCurrencyCodes (c0 :: cs))) randFn failFn now (c0 :: cs) 0
          state.storage).2.1⟩ := by
      injection h with h'
      exact h'.symm
    have hp1 : 0 < (processAll (fetchExchangeRatesForCurrencies snapshot
        (extractUniqueCurrencyCodes (c0 :: cs))) randFn failFn now (c0 :: cs) 0
        state.storage).1 := by
      rw [ho] at hp
      exact hp
    rw [if_pos hp1]
    obtain ⟨r, hmem, hts⟩ := processAll_writes_now
      (fetchExchangeRatesForCurrencies snapshot (extractUniqueCurrencyCodes (c0 :: cs)))
      randFn failFn now (c0 :: cs) 0 state.storage hp1
    rcases hmax : maxLastRefreshed (processAll (fetchExchangeRatesForCurrencies snapshot
        (extractUniqueCurrencyCodes (c0 :: cs))) randFn failFn now (c0 :: cs) 0
        state.storage).2.2.rows with _ | t
    · exact absurd hmax (maxLastRefreshed_ne_none hmem hts)
    · unfold refreshSystemStatusFromDatabase
      rw [hmax]
      exact ⟨rfl, rfl⟩

/-- Witness for C8 at a concrete successful refresh of one record. -/
theorem c8_status_recomputed_from_storage_witness :
    (refreshCountries (.ok [⟨"Testland", none, none, 1000, none, some [⟨"abc", "n", "s"⟩]⟩])
        (.ok [("ABC", 2)]) (fun _ => 0) (fun _ => none) 5
        ⟨⟨[], 0⟩, ⟨0, none⟩⟩).2.status.total_countries
      = (refreshCountries (.ok [⟨"Testland", none, none, 1000, none, some [⟨"abc", "n", "s"⟩]⟩])
          (.ok [("ABC", 2)]) (fun _ => 0) (fun _ => none) 5
          ⟨⟨[], 0⟩, ⟨0, none⟩⟩).2.storage.rows.length ∧
    (refreshCountries (.ok [⟨"Testland", none, none, 1000, none, some [⟨"abc", "n", "s"⟩]⟩])
        (.ok [("ABC", 2)]) (fun _ => 0) (fun _ => none) 5
        ⟨⟨[], 0⟩, ⟨0, none⟩⟩).2.status.last_refreshed_at
      = maxLastRefreshed
        (refreshCountries (.ok [⟨"Testland", none, none, 1000, none, some [⟨"abc", "n", "s"⟩]⟩])
          (.ok [("ABC", 2)]) (fun _ => 0) (fun _ => none) 5
          ⟨⟨[], 0⟩, ⟨0, none⟩⟩).2.storage.rows :=
  c8_status_recomputed_from_storage
    [⟨"Testland", none, none, 1000, none, some [⟨"abc", "n", "s"⟩]⟩]
    (.ok [("ABC", 2)]) (fun _ => 0) (fun _ => none) 5 ⟨⟨[], 0⟩, ⟨0, none⟩⟩
    ⟨true, 1, []⟩ (by decide) (by decide)

/-! ## C9 — per-record failure isolation -/

/-- C9: for 3 fetched records (pairwise distinct names) where record 2 fails
during processing, the failure is caught as one string message keyed to
record 2's name, processing continues, and the cycle reports `processed = 2`
with one error while storage contains records 1 and 3 and no row matching
record 2. -/
theorem c9_per_record_failure_isolated
    (c1 c2 c3 : ExternalCountry) (snapshot : Except ExtErr (List (String × ℚ)))
    (randFn : Nat → ℚ) (now : Nat) (status : SystemStatusRow) (m : String)
    (h13 : lowerEq c1.name c3.name = false)
    (h12 : lowerEq c1.name c2.name = false)
    (h32 : lowerEq c3.name c2.name = false) :
    (refreshCountries (.ok [c1, c2, c3]) snapshot randFn
        (fun i => if i = 1 then some m else none) now ⟨⟨[], 0⟩, status⟩).1
      = .returned ⟨true, 2, ["Failed to process country " ++ c2.name ++ ": " ++ m]⟩ ∧
    (refreshCountries (.ok [c1, c2, c3]) snapshot randFn
        (fun i => if i = 1 then some m else none) now ⟨⟨[], 0⟩, status⟩).2.storage.rows.map
        (fun r => r.row.name)
      = [c1.name, c3.name] ∧
    (∀ r ∈ (refreshCountries (.ok [c1, c2, c3]) snapshot randFn
        (fun i => if i = 1 then some m else none) now ⟨⟨[], 0⟩, status⟩).2.storage.rows,
      lowerEq r.row.name c2.name = false) := by
  have hnomatch : ∀ r ∈ ([⟨0, storedOf (processCountryData c1
      (fetchExchangeRatesForCurrencies snapshot (extractUniqueCurrencyCodes [c1, c2, c3]))
      (randFn 0) now) now⟩] : List StoredRow),
      lowerEq r.row.name (processCountryData c3
        (fetchExchangeRatesForCurrencies snapshot (extractUniqueCurrencyCodes [c1, c2, c3]))
        (randFn 2) now).name = false := by
    intro r hr
    obtain rfl := List.mem_singleton.mp hr
    simpa using h13
  have hup3 : upsertCountry
      ⟨[⟨0, storedOf (processCountryData c1
          (fetchExchangeRatesForCurrencies snapshot (extractUniqueCurrencyCodes [c1, c2, c3]))
          (randFn 0) now) now⟩], 1⟩
      (processCountryData c3
        (fetchExchangeRatesForCurrencies snapshot (extractUniqueCurrencyCodes [c1, c2, c3]))
        (randFn 2) now) now
      = ⟨[⟨0, storedOf (processCountryData c1
            (fetchExchangeRatesForCurrencies snapshot (extractUniqueCurrencyCodes [c1, c2, c3]))
            (randFn 0) now) now⟩,
          ⟨1, storedOf (processCountryData c3
            (fetchExchangeRatesForCurrencies snapshot (extractUniqueCurrencyCodes [c1, c2, c3]))
            (randFn 2) now) now⟩], 2⟩ := by
    rw [upsert_insert_of_no_match _ _ _ hnomatch]
    rfl
  have hloop : processAll
      (fetchExchangeRatesForCurrencies snapshot (extractUniqueCurrencyCodes [c1, c2, c3]))
      randFn (fun i => if i = 1 then some m else none) now [c1, c2, c3] 0 ⟨[], 0⟩
      = (2, ["Failed to process country " ++ c2.name ++ ": " ++ m],
         upsertCountry
          ⟨[⟨0, storedOf (processCountryData c1
              (fetchExchangeRatesForCurrencies snapshot (extractUniqueCurrencyCodes [c1, c2, c3]))
              (randFn 0) now) now⟩], 1⟩
          (processCountryData c3
            (fetchExchangeRatesForCurrencies snapshot (extractUniqueCurrencyCodes [c1, c2, c3]))
            (randFn 2) now) now) := rfl
  rw [hup3] at hloop
  rw [refreshCountries_cons_eq]
  dsimp only
  rw [hloop]
  refine ⟨rfl, by simp, ?_⟩
  intro r hr
  rcases List.mem_cons.mp hr with rfl | hr2
  · simpa using h12
  · obtain rfl := List.mem_singleton.mp hr2
    simpa using h32

/-- Witness for C9 on three concrete records where record 2's upsert fails. -/
theorem c9_per_record_failure_isolated_witness :
    (refreshCountries (.ok [⟨"Aland", none, none, 1, none, none⟩,
        ⟨"Bland", none, none, 2, none, none⟩, ⟨"Cland", none, none, 3, none, none⟩])
        (.ok []) (fun _ => 0) (fun i => if i = 1 then some ("bad record") else none) 5
        ⟨⟨[], 0⟩, ⟨0, none⟩⟩).1
      = .returned ⟨true, 2, ["Failed to process country " ++ "Bland" ++ ": " ++ "bad record"]⟩ ∧
    (refreshCountries (.ok [⟨"Aland", none, none, 1, none, none⟩,
        ⟨"Bland", none, none, 2, none, none⟩, ⟨"Cland", none, none, 3, none, none⟩])
        (.ok []) (fun _ => 0) (fun i => if i = 1 then some ("bad record") else none) 5
        ⟨⟨[], 0⟩, ⟨0, none⟩⟩).2.storage.rows.map (fun r => r.row.name)
      = ["Aland", "Cland"] ∧
    (∀ r ∈ (refreshCountries (.ok [⟨"Aland", none, none, 1, none, none⟩,
        ⟨"Bland", none, none, 2, none, none⟩, ⟨"Cland", none, none, 3, none, none⟩])
        (.ok []) (fun _ => 0) (fun i => if i = 1 then some ("bad record") else none) 5
        ⟨⟨[], 0⟩, ⟨0, none⟩⟩).2.storage.rows,
      lowerEq r.row.name ("Bland") = false) :=
  c9_per_record_failure_isolated
    ⟨"Aland", none, none, 1, none, none⟩ ⟨"Bland", none, none, 2, none, none⟩
    ⟨"Cland", none, none, 3, none, none⟩ (.ok []) (fun _ => 0) 5 ⟨0, none⟩ "bad record"
    (by decide) (by decide) (by decide)

end CountryApi
